import Mathlib

/-!
Verification of the custom rule-matching and action-resolution engine of the
moderation platform, embedded from src/app/api/content-moderation/route.ts.

The embedding models:
* pattern matching of one rule against a text (lines 112-126),
* the single-pass rule scan with whitelist short-circuit and blacklist
  tracking (lines 108-142),
* the outer fail-open shell of applyCustomRules (lines 81-103, 143-146),
* severity classification of a classifier result (lines 36-69),
* the moderation stage of the POST handler from input validation onwards
  (lines 213-311): rule application, classifier fallback, log insert and
  response assembly.

JavaScript strings are Lean Strings, JS numbers appearing in score
comparisons are rationals, `x || d` on nullable strings is jsOr, and the
regex engine is an explicit parameter (a compiler from pattern and
ignore-case flag to an optional matching function; compilation failure,
i.e. a thrown RegExp constructor error, is none).
-/

namespace Moderation

/-- The two rule types of the CustomRule interface (route.ts line 75). -/
inductive RuleType where
  | blacklist
  | whitelist
deriving DecidableEq, Repr

/-- CustomRule (route.ts lines 72-79). `action_override` is nullable. -/
structure CustomRule where
  id : String
  term : String
  type : RuleType
  action_override : Option String
  is_regex : Bool
  case_sensitive : Bool
deriving DecidableEq, Repr

/-- A regex engine: given a pattern and whether the case-insensitive flag
is set, return a matching function, or none when the pattern does not
compile (the RegExp constructor throws, route.ts lines 118-122). -/
def RegexEngine : Type := String → Bool → Option (String → Bool)

/-- JavaScript `x || d` for a nullable string `x`: null and the empty
string are falsy. -/
def jsOr (x : Option String) (d : String) : String :=
  match x with
  | none => d
  | some s => if s = "" then d else s

/-- JavaScript String.prototype.includes: substring containment. -/
def jsIncludes (s pat : String) : Bool :=
  decide (pat.toList <:+: s.toList)

/-- JavaScript String.prototype.toLowerCase, modelled character-wise. -/
def jsToLower (s : String) : String :=
  ⟨s.data.map Char.toLower⟩

/-- The arguments the code hands to the regex engine for one rule:
the pattern given to the RegExp constructor, whether the 'i' flag is set,
and the text given to regex.test (route.ts lines 112-119). -/
structure RegexCall where
  pattern : String
  ignoreCase : Bool
  text : String
deriving DecidableEq, Repr

/-- The regex call the loop body builds for a rule on a given content
(route.ts lines 112, 113, 118, 119): term and content are lower-cased
unless the rule is case-sensitive, and the 'i' flag is set exactly when
the rule is not case-sensitive. -/
def regexCallFor (rule : CustomRule) (content : String) : RegexCall :=
  { pattern := if rule.case_sensitive then rule.term else jsToLower rule.term
  , ignoreCase := !rule.case_sensitive
  , text := if rule.case_sensitive then content else jsToLower content }

/-- One iteration of the matching part of the rule loop (route.ts lines
112-126): regex rules go through the engine (a non-compiling pattern is
caught and the loop continues, i.e. the rule does not match), literal
rules use substring containment on the (possibly lower-cased) strings. -/
def ruleMatches (eng : RegexEngine) (content : String) (rule : CustomRule) : Bool :=
  let termToMatch := if rule.case_sensitive then rule.term else jsToLower rule.term
  let contentToCompare := if rule.case_sensitive then content else jsToLower content
  if rule.is_regex then
    match eng termToMatch (!rule.case_sensitive) with
    | none => false
    | some f => f contentToCompare
  else
    jsIncludes contentToCompare termToMatch

/-- Result of applyCustomRules (route.ts line 81). -/
structure RuleOutcome where
  actionOverride : Option String
  ruleMatched : Option CustomRule
deriving DecidableEq, Repr

/-- The scan loop of applyCustomRules (route.ts lines 108-142), with the
blacklist-match accumulator made explicit. A matching whitelist rule
returns immediately with its override defaulted to approve; a matching
blacklist rule overwrites the accumulator and the scan continues; after
the loop a recorded blacklist match returns its override defaulted to
block, otherwise no rule controls. -/
def scanRules (eng : RegexEngine) (content : String) :
    List CustomRule → Option CustomRule → RuleOutcome
  | [], blacklistMatch =>
      match blacklistMatch with
      | some b => { actionOverride := some (jsOr b.action_override "block"), ruleMatched := some b }
      | none => { actionOverride := none, ruleMatched := none }
  | rule :: rest, blacklistMatch =>
      if ruleMatches eng content rule then
        match rule.type with
        | RuleType.whitelist =>
            { actionOverride := some (jsOr rule.action_override "approve"), ruleMatched := some rule }
        | RuleType.blacklist => scanRules eng content rest (some rule)
      else
        scanRules eng content rest blacklistMatch

/-- The ways the rule-store interaction can go (route.ts lines 82-103,
143-146): the supabase client may be missing, the query may return a
database error, the awaited query (or anything else inside the try block)
may throw and be caught by the outer catch, or it yields a list of rules. -/
inductive RuleStoreOutcome where
  | unavailable
  | dbError
  | thrown
  | ok (rules : List CustomRule)

/-- applyCustomRules (route.ts lines 81-147): every rule-store failure and
the empty ruleset fall open to no override; otherwise the scan runs with
an empty blacklist accumulator. -/
def applyCustomRules (eng : RegexEngine) (store : RuleStoreOutcome)
    (content : String) : RuleOutcome :=
  match store with
  | RuleStoreOutcome.unavailable => { actionOverride := none, ruleMatched := none }
  | RuleStoreOutcome.dbError => { actionOverride := none, ruleMatched := none }
  | RuleStoreOutcome.thrown => { actionOverride := none, ruleMatched := none }
  | RuleStoreOutcome.ok rules =>
      if rules.isEmpty then { actionOverride := none, ruleMatched := none }
      else scanRules eng content rules none

/-- The category-score fields the severity code reads
(route.ts lines 48, 51). A field absent from the JS object is none, and a
comparison with an absent field is false (undefined > t is false). -/
structure Scores where
  sexual : Option ℚ
  hate : Option ℚ
  harassment : Option ℚ
  violence : Option ℚ
  selfHarm : Option ℚ
deriving DecidableEq, Repr

/-- JavaScript `scores.c > t` where the field may be undefined:
undefined compares false against everything. -/
def jsGT (x : Option ℚ) (t : ℚ) : Bool :=
  match x with
  | none => false
  | some v => decide (t < v)

/-- The scores object with no category keys: `{}` in JS, which is truthy
(a present but empty category_scores passes the `if (scores)` test). -/
def emptyScores : Scores :=
  { sexual := none, hate := none, harassment := none, violence := none, selfHarm := none }

/-- The part of an OpenAI moderation result the handler reads: the flagged
bit, the per-category booleans, and the category_scores object, which is
absent (undefined, hence falsy) when none. -/
structure ModerationResult where
  flagged : Bool
  categories : List (String × Bool)
  category_scores : Option Scores
deriving DecidableEq, Repr

/-- Return value of determineActionAndSeverity (route.ts line 36): the
`action` field is the flagged boolean passed through. -/
structure ActionSeverity where
  action : Bool
  severity : String
  determinedAction : String
deriving DecidableEq, Repr

/-- The constant highSeverityThreshold = 0.8 (route.ts line 43). -/
def highSeverityThreshold : ℚ := mkRat 8 10

/-- The constant mediumSeverityThreshold = 0.5 (route.ts line 44). -/
def mediumSeverityThreshold : ℚ := mkRat 5 10

/-- determineActionAndSeverity (route.ts lines 36-69). Thresholds are 0.8
for high and 0.5 for medium, with strict comparisons; a flagged result
whose category_scores is absent (falsy) falls to the unknown branch, and
an unflagged result is low/approved. -/
def determineActionAndSeverity (m : ModerationResult) : ActionSeverity :=
  if m.flagged then
    match m.category_scores with
    | some scores =>
        if jsGT scores.sexual highSeverityThreshold || jsGT scores.hate highSeverityThreshold ||
            jsGT scores.violence highSeverityThreshold || jsGT scores.selfHarm highSeverityThreshold then
          { action := m.flagged, severity := "high", determinedAction := "block" }
        else if jsGT scores.sexual mediumSeverityThreshold || jsGT scores.hate mediumSeverityThreshold ||
            jsGT scores.harassment mediumSeverityThreshold || jsGT scores.violence mediumSeverityThreshold ||
            jsGT scores.selfHarm mediumSeverityThreshold then
          { action := m.flagged, severity := "medium", determinedAction := "manual_review" }
        else
          { action := m.flagged, severity := "low", determinedAction := "warn" }
    | none =>
        { action := m.flagged, severity := "unknown", determinedAction := "flagged_unknown_severity" }
  else
    { action := m.flagged, severity := "low", determinedAction := "approved" }

/-- Outcome of the OpenAI moderation call in the fallback branch
(route.ts lines 238-263): a result, or any thrown error (unavailable,
timeout, transport) carrying a message. -/
inductive ClassifierOutcome where
  | ok (result : ModerationResult)
  | failure (message : String)

/-- The moderation-log row inserted into moderation_logs
(route.ts lines 269-282), restricted to the scalar fields the claims
concern. -/
structure LogRecord where
  client_id : String
  user_id : Option String
  content : String
  flagged : Bool
  action : String
  severity : String
  categories : List String
  custom_rule_id : Option String
deriving DecidableEq, Repr

/-- The decision fields of the 200 response body (route.ts lines 298-308). -/
structure Decision where
  flagged : Bool
  action : String
  severity : String
  categories : List String
  custom_rule_applied : Bool
  matched_rule_id : Option String
deriving DecidableEq, Repr

/-- What the handler sends back: an error response with a status and error
code, or a 200 decision. -/
inductive ApiResponse where
  | error (status : Nat) (code : String)
  | ok (decision : Decision)
deriving DecidableEq, Repr

/-- The handler's observable outcome: the response, and the log row it
inserted (none when no insert was attempted). -/
structure PostOutcome where
  response : ApiResponse
  logWritten : Option LogRecord
deriving DecidableEq, Repr

/-- JavaScript `ruleMatched?.id || null`: an absent rule or an empty id
gives null. -/
def ruleIdOrNull (r : Option CustomRule) : Option String :=
  match r with
  | none => none
  | some rule => if rule.id = "" then none else some rule.id

/-- The moderation stage of the POST handler (route.ts lines 213-311),
after authentication and input validation: apply custom rules; a truthy
actionOverride takes the custom-rule branch (severity custom_rule, the
synthetic moderationResult's flagged is determinedAction !== 'approved');
otherwise a missing OpenAI client is a 500 server_error, a throwing
moderation call is a 500 openai_error with no log insert, and a successful
call goes through determineActionAndSeverity, collecting the flagged
categories. The log row is inserted only when the supabase client exists,
and the response is assembled from the same fields. -/
def moderatePost (eng : RegexEngine) (store : RuleStoreOutcome)
    (cls : ClassifierOutcome) (openaiAvailable : Bool) (supabaseAvailable : Bool)
    (clientId : String) (userId : Option String) (content : String) : PostOutcome :=
  let ruleOutcome := applyCustomRules eng store content
  match ruleOutcome.actionOverride with
  | some a =>
      let determinedAction := a
      let moderationSeverity := "custom_rule"
      let resultFlagged := decide (determinedAction ≠ "approved")
      let ruleMatchedId := ruleIdOrNull ruleOutcome.ruleMatched
      let logRow : LogRecord :=
        { client_id := clientId, user_id := userId, content := content
        , flagged := resultFlagged, action := determinedAction
        , severity := moderationSeverity, categories := []
        , custom_rule_id := ruleMatchedId }
      { response := ApiResponse.ok
          { flagged := resultFlagged, action := determinedAction
          , severity := moderationSeverity, categories := []
          , custom_rule_applied := true, matched_rule_id := ruleMatchedId }
      , logWritten := if supabaseAvailable then some logRow else none }
  | none =>
      if !openaiAvailable then
        { response := ApiResponse.error 500 "server_error", logWritten := none }
      else
        match cls with
        | ClassifierOutcome.failure _ =>
            { response := ApiResponse.error 500 "openai_error", logWritten := none }
        | ClassifierOutcome.ok m =>
            let computed := determineActionAndSeverity m
            let moderationCategories := (m.categories.filter (fun c => c.2)).map (fun c => c.1)
            let logRow : LogRecord :=
              { client_id := clientId, user_id := userId, content := content
              , flagged := m.flagged, action := computed.determinedAction
              , severity := computed.severity, categories := moderationCategories
              , custom_rule_id := none }
            { response := ApiResponse.ok
                { flagged := m.flagged, action := computed.determinedAction
                , severity := computed.severity, categories := moderationCategories
                , custom_rule_applied := false, matched_rule_id := none }
            , logWritten := if supabaseAvailable then some logRow else none }

/-! Spec-side vocabulary used to state the claims, and concrete fixtures. -/

/-- The spec's "rule R is a matching whitelist rule": R has type whitelist
and the pattern matcher succeeds on the text. -/
def whitelistHit (eng : RegexEngine) (content : String) (r : CustomRule) : Bool :=
  decide (r.type = RuleType.whitelist) && ruleMatches eng content r

/-- The spec's "rule R is a matching blacklist rule". -/
def blacklistHit (eng : RegexEngine) (content : String) (r : CustomRule) : Bool :=
  decide (r.type = RuleType.blacklist) && ruleMatches eng content r

/-- The outcome the scan produces from the recorded blacklist match once
the loop has ended without a whitelist short-circuit (route.ts 138-142). -/
def blackFinal : Option CustomRule → RuleOutcome
  | some b => { actionOverride := some (jsOr b.action_override "block"), ruleMatched := some b }
  | none => { actionOverride := none, ruleMatched := none }

/-- The spec's "category score strictly above a threshold": the category
key is present and its value exceeds the threshold. -/
def scoreAbove : Option ℚ → ℚ → Prop
  | none, _ => False
  | some v, t => t < v

instance (x : Option ℚ) (t : ℚ) : Decidable (scoreAbove x t) :=
  match x with
  | none => isFalse (fun h => h)
  | some v => inferInstanceAs (Decidable (t < v))

/-- The spec's high-severity condition: any of sexual, hate, violence,
self-harm strictly above 0.8. -/
def highCategoryAbove (s : Scores) : Prop :=
  scoreAbove s.sexual highSeverityThreshold ∨ scoreAbove s.hate highSeverityThreshold ∨
    scoreAbove s.violence highSeverityThreshold ∨ scoreAbove s.selfHarm highSeverityThreshold

instance (s : Scores) : Decidable (highCategoryAbove s) := by
  unfold highCategoryAbove; infer_instance

/-- The spec's medium-severity condition: any of sexual, hate, harassment,
violence, self-harm strictly above 0.5. -/
def mediumCategoryAbove (s : Scores) : Prop :=
  scoreAbove s.sexual mediumSeverityThreshold ∨ scoreAbove s.hate mediumSeverityThreshold ∨
    scoreAbove s.harassment mediumSeverityThreshold ∨ scoreAbove s.violence mediumSeverityThreshold ∨
    scoreAbove s.selfHarm mediumSeverityThreshold

instance (s : Scores) : Decidable (mediumCategoryAbove s) := by
  unfold mediumCategoryAbove; infer_instance

/-- A regex engine on which no pattern compiles; enough for the fixtures
below, which only use literal rules or exercise the failure path. -/
def engNone : RegexEngine := fun _ _ => none

/-- Fixture: the literal blacklist rule of the spec's scenario. -/
def fooRule : CustomRule :=
  { id := "r-foo", term := "foo", type := RuleType.blacklist
  , action_override := none, is_regex := false, case_sensitive := false }

/-- Fixture: a literal blacklist rule matching any text containing aa. -/
def blackA : CustomRule :=
  { id := "rule-a", term := "aa", type := RuleType.blacklist
  , action_override := none, is_regex := false, case_sensitive := false }

/-- Fixture: a literal blacklist rule matching any text containing bb,
with a warn override. -/
def blackB : CustomRule :=
  { id := "rule-b", term := "bb", type := RuleType.blacklist
  , action_override := some "warn", is_regex := false, case_sensitive := false }

/-- Fixture: a literal whitelist rule, null override, matching ok. -/
def whiteOk : CustomRule :=
  { id := "w-ok", term := "ok", type := RuleType.whitelist
  , action_override := none, is_regex := false, case_sensitive := false }

/-- Fixture: a regex rule whose pattern (term) does not compile on the
engines used with it. -/
def badRegexRule : CustomRule :=
  { id := "r-bad", term := "(unclosed", type := RuleType.blacklist
  , action_override := none, is_regex := true, case_sensitive := false }

/-- Fixture: a scores object whose five categories all sit exactly at the
high threshold 0.8. -/
def boundaryHighScores : Scores :=
  { sexual := some highSeverityThreshold, hate := some highSeverityThreshold
  , harassment := some highSeverityThreshold, violence := some highSeverityThreshold
  , selfHarm := some highSeverityThreshold }

/-- Fixture: a scores object whose five categories all sit exactly at the
medium threshold 0.5. -/
def boundaryMediumScores : Scores :=
  { sexual := some mediumSeverityThreshold, hate := some mediumSeverityThreshold
  , harassment := some mediumSeverityThreshold, violence := some mediumSeverityThreshold
  , selfHarm := some mediumSeverityThreshold }

/-! Helper lemmas about the scan loop and the severity conditions. -/

theorem jsGT_eq_true_iff (x : Option ℚ) (t : ℚ) : jsGT x t = true ↔ scoreAbove x t := by
  cases x <;> simp [jsGT, scoreAbove]

theorem highBool_iff (s : Scores) :
    (jsGT s.sexual highSeverityThreshold || jsGT s.hate highSeverityThreshold ||
      jsGT s.violence highSeverityThreshold || jsGT s.selfHarm highSeverityThreshold) = true ↔
      highCategoryAbove s := by
  simp only [Bool.or_eq_true, jsGT_eq_true_iff, highCategoryAbove]
  tauto

theorem mediumBool_iff (s : Scores) :
    (jsGT s.sexual mediumSeverityThreshold || jsGT s.hate mediumSeverityThreshold ||
      jsGT s.harassment mediumSeverityThreshold || jsGT s.violence mediumSeverityThreshold ||
      jsGT s.selfHarm mediumSeverityThreshold) = true ↔ mediumCategoryAbove s := by
  simp only [Bool.or_eq_true, jsGT_eq_true_iff, mediumCategoryAbove]
  tauto

theorem scanRules_nil (eng : RegexEngine) (content : String) (bm : Option CustomRule) :
    scanRules eng content [] bm = blackFinal bm := by
  cases bm <;> rfl

theorem scanRules_find_whitelist (eng : RegexEngine) (content : String) :
    ∀ (l : List CustomRule) (bm : Option CustomRule) (w : CustomRule),
      l.find? (whitelistHit eng content) = some w →
      scanRules eng content l bm =
        { actionOverride := some (jsOr w.action_override "approve"), ruleMatched := some w } := by
  intro l
  induction l with
  | nil => intro bm w h; simp [List.find?] at h
  | cons r rest ih =>
    intro bm w h
    by_cases hr : whitelistHit eng content r = true
    · rw [List.find?_cons_of_pos _ hr] at h
      injection h with h
      subst h
      have hparts := (Bool.and_eq_true _ _).mp hr
      have ht : r.type = RuleType.whitelist := of_decide_eq_true hparts.1
      have hm : ruleMatches eng content r = true := hparts.2
      simp [scanRules, hm, ht]
    · rw [List.find?_cons_of_neg _ hr] at h
      by_cases hm : ruleMatches eng content r = true
      · cases htype : r.type with
        | whitelist =>
          exact absurd (by simp [whitelistHit, htype, hm]) hr
        | blacklist =>
          simp only [scanRules, hm, htype, if_pos]
          exact ih (some r) w h
      · simp only [scanRules, Bool.not_eq_true] at hm ⊢
        simp only [hm, Bool.false_eq_true, if_false]
        exact ih bm w h

theorem scanRules_no_whitelist (eng : RegexEngine) (content : String) :
    ∀ (l : List CustomRule) (bm : Option CustomRule),
      l.find? (whitelistHit eng content) = none →
      scanRules eng content l bm =
        blackFinal ((l.reverse.find? (blacklistHit eng content)).or bm) := by
  intro l
  induction l with
  | nil => intro bm _; simp [scanRules_nil]
  | cons r rest ih =>
    intro bm h
    have hr : whitelistHit eng content r = false := by
      by_contra hc
      rw [List.find?_cons_of_pos _ (by revert hc; cases whitelistHit eng content r <;> simp)] at h
      exact Option.noConfusion h
    rw [List.find?_cons_of_neg _ (by simp [hr])] at h
    have hrev : (r :: rest).reverse.find? (blacklistHit eng content) =
        (rest.reverse.find? (blacklistHit eng content)).or ([r].find? (blacklistHit eng content)) := by
      rw [List.reverse_cons, List.find?_append]
    by_cases hm : ruleMatches eng content r = true
    · cases htype : r.type with
      | whitelist =>
        exfalso
        have hw : whitelistHit eng content r = true := by simp [whitelistHit, htype, hm]
        rw [hr] at hw
        exact Bool.noConfusion hw
      | blacklist =>
        have hbh : blacklistHit eng content r = true := by simp [blacklistHit, htype, hm]
        simp only [scanRules, hm, htype, if_pos]
        rw [ih (some r) h, hrev]
        simp only [List.find?_cons, hbh]
        cases rest.reverse.find? (blacklistHit eng content) <;> cases bm <;> rfl
    · have hbh : blacklistHit eng content r = false := by
        simp only [Bool.not_eq_true] at hm
        simp [blacklistHit, hm]
      simp only [Bool.not_eq_true] at hm
      simp only [scanRules, hm, Bool.false_eq_true, if_false]
      rw [ih bm h, hrev]
      simp only [List.find?_cons, hbh]
      cases rest.reverse.find? (blacklistHit eng content) <;> cases bm <;> rfl

theorem scanRules_skip_rule (eng : RegexEngine) (content : String) (bad : CustomRule)
    (hbad : ruleMatches eng content bad = false) :
    ∀ (l1 l2 : List CustomRule) (bm : Option CustomRule),
      scanRules eng content (l1 ++ bad :: l2) bm = scanRules eng content (l1 ++ l2) bm := by
  intro l1
  induction l1 with
  | nil =>
    intro l2 bm
    simp only [List.nil_append, scanRules, hbad, Bool.false_eq_true, if_false]
  | cons r l1 ih =>
    intro l2 bm
    by_cases hm : ruleMatches eng content r = true
    · cases htype : r.type with
      | whitelist => simp only [List.cons_append, scanRules, hm, htype, if_pos]
      | blacklist =>
        simp only [List.cons_append, scanRules, hm, htype, if_pos]
        exact ih l2 (some r)
    · simp only [Bool.not_eq_true] at hm
      simp only [List.cons_append, scanRules, hm, Bool.false_eq_true, if_false]
      exact ih l2 bm

/-- The severity table of determineActionAndSeverity for a flagged result
with a present scores object, as one definitional equation. -/
theorem det_eq_table (cats : List (String × Bool)) (s : Scores) :
    determineActionAndSeverity { flagged := true, categories := cats, category_scores := some s } =
      if jsGT s.sexual highSeverityThreshold || jsGT s.hate highSeverityThreshold ||
          jsGT s.violence highSeverityThreshold || jsGT s.selfHarm highSeverityThreshold then
        { action := true, severity := "high", determinedAction := "block" }
      else if jsGT s.sexual mediumSeverityThreshold || jsGT s.hate mediumSeverityThreshold ||
          jsGT s.harassment mediumSeverityThreshold || jsGT s.violence mediumSeverityThreshold ||
          jsGT s.selfHarm mediumSeverityThreshold then
        { action := true, severity := "medium", determinedAction := "manual_review" }
      else { action := true, severity := "low", determinedAction := "warn" } := rfl

/-- An unflagged result is low/approved whatever the scores. -/
theorem det_not_flagged (cats : List (String × Bool)) (cs : Option Scores) :
    determineActionAndSeverity { flagged := false, categories := cats, category_scores := cs } =
      { action := false, severity := "low", determinedAction := "approved" } := rfl

/-- A flagged result with absent (falsy) scores takes the unknown branch. -/
theorem det_absent (cats : List (String × Bool)) :
    determineActionAndSeverity { flagged := true, categories := cats, category_scores := none } =
      { action := true, severity := "unknown", determinedAction := "flagged_unknown_severity" } := rfl

/-- For a regex rule, the matcher is exactly the engine applied to the
pattern, flag and text recorded by regexCallFor. -/
theorem ruleMatches_regex_call (eng : RegexEngine) (content : String) (rule : CustomRule)
    (h : rule.is_regex = true) :
    ruleMatches eng content rule =
      (match eng (regexCallFor rule content).pattern (regexCallFor rule content).ignoreCase with
       | none => false
       | some f => f (regexCallFor rule content).text) := by
  simp [ruleMatches, regexCallFor, h]

/-! The claims. -/

/-- C1: for every ordered ruleset and text with at least one matching
whitelist rule, rule resolution returns the first whitelist rule (in list
order) that matches as the controlling rule: the action override is that
rule's action_override, defaulted to approve when null, and the matched
rule is that rule — with no hypothesis on blacklist rules, which may match
anywhere in the sequence. -/
theorem c1_first_whitelist_match_controls (eng : RegexEngine) (content : String)
    (rules : List CustomRule) (w : CustomRule)
    (hw : rules.find? (whitelistHit eng content) = some w) :
    applyCustomRules eng (RuleStoreOutcome.ok rules) content =
      { actionOverride := some (jsOr w.action_override "approve"), ruleMatched := some w } := by
  have hne : rules.isEmpty = false := by
    cases rules with
    | nil => simp [List.find?] at hw
    | cons a l => rfl
  simp only [applyCustomRules, hne, Bool.false_eq_true, if_false]
  exact scanRules_find_whitelist eng content rules none w hw

/-- Witness for C1: a ruleset whose blacklist rule matches first in list
order, followed by a matching whitelist rule with a null override; the
whitelist rule controls with the approve default. -/
theorem c1_witness :
    applyCustomRules engNone (RuleStoreOutcome.ok [blackA, whiteOk]) "aa ok" =
      { actionOverride := some "approve", ruleMatched := some whiteOk } :=
  c1_first_whitelist_match_controls engNone "aa ok" [blackA, whiteOk] whiteOk (by decide)

/-- C2 counterexample: with no whitelist match and two matching blacklist
rules, blackA first in list order, the resolution does not return blackA's
outcome (it returns the last match, blackB), refuting the claim that the
FIRST matching blacklist rule controls. -/
theorem c2_counterexample :
    [blackA, blackB].find? (blacklistHit engNone "aa bb") = some blackA ∧
    [blackA, blackB].find? (whitelistHit engNone "aa bb") = none ∧
    applyCustomRules engNone (RuleStoreOutcome.ok [blackA, blackB]) "aa bb" ≠
      { actionOverride := some (jsOr blackA.action_override "block")
      , ruleMatched := some blackA } := by
  decide

/-- C2 amended: for every ordered ruleset and text where no whitelist rule
matches but at least one blacklist rule matches, rule resolution returns
the LAST matching blacklist rule in list order: the matched rule is that
rule and the action is its action_override, defaulted to block when
null. -/
theorem c2_last_blacklist_match_controls (eng : RegexEngine) (content : String)
    (rules : List CustomRule) (b : CustomRule)
    (hw : rules.find? (whitelistHit eng content) = none)
    (hb : rules.reverse.find? (blacklistHit eng content) = some b) :
    applyCustomRules eng (RuleStoreOutcome.ok rules) content =
      { actionOverride := some (jsOr b.action_override "block"), ruleMatched := some b } := by
  have hne : rules.isEmpty = false := by
    cases rules with
    | nil => simp [List.find?] at hb
    | cons a l => rfl
  simp only [applyCustomRules, hne, Bool.false_eq_true, if_false]
  rw [scanRules_no_whitelist eng content rules none hw, hb]
  rfl

/-- Witness for C2: both blacklist rules match, and the later one (with
its warn override) controls. -/
theorem c2_witness :
    applyCustomRules engNone (RuleStoreOutcome.ok [blackA, blackB]) "aa bb" =
      { actionOverride := some "warn", ruleMatched := some blackB } :=
  c2_last_blacklist_match_controls engNone "aa bb" [blackA, blackB] blackB
    (by decide) (by decide)

/-- C3: the full severity decision table. An unflagged result is low with
the approval action (which this function renders as the string
"approved") regardless of scores; a flagged result with a present,
non-empty scores object is high/block when any of sexual, hate, violence,
self-harm strictly exceeds 0.8, else medium/manual_review when any of
sexual, hate, harassment, violence, self-harm strictly exceeds 0.5, else
low/warn; and the comparisons are strict: all categories exactly at 0.8
do not produce high, all exactly at 0.5 do not produce medium. -/
theorem c3_severity_decision_table :
    (∀ m : ModerationResult, m.flagged = false →
      determineActionAndSeverity m =
        { action := false, severity := "low", determinedAction := "approved" }) ∧
    (∀ (m : ModerationResult) (s : Scores),
      m.flagged = true → m.category_scores = some s → s ≠ emptyScores →
      (highCategoryAbove s → determineActionAndSeverity m =
          { action := true, severity := "high", determinedAction := "block" }) ∧
      (¬highCategoryAbove s → mediumCategoryAbove s → determineActionAndSeverity m =
          { action := true, severity := "medium", determinedAction := "manual_review" }) ∧
      (¬highCategoryAbove s → ¬mediumCategoryAbove s → determineActionAndSeverity m =
          { action := true, severity := "low", determinedAction := "warn" })) ∧
    (determineActionAndSeverity
        { flagged := true, categories := []
        , category_scores := some boundaryHighScores }).severity ≠ "high" ∧
    (determineActionAndSeverity
        { flagged := true, categories := []
        , category_scores := some boundaryMediumScores }).severity ≠ "medium" := by
  refine ⟨?_, ?_, by decide, by decide⟩
  · intro m h
    obtain ⟨flag, cats, cs⟩ := m
    cases h
    exact det_not_flagged cats cs
  · intro m s hf hs _hne
    obtain ⟨flag, cats, cs⟩ := m
    cases hf
    cases hs
    refine ⟨?_, ?_, ?_⟩
    · intro hhigh
      rw [det_eq_table, if_pos ((highBool_iff s).mpr hhigh)]
    · intro hnh hmed
      rw [det_eq_table, if_neg (fun hb => hnh ((highBool_iff s).mp hb)),
        if_pos ((mediumBool_iff s).mpr hmed)]
    · intro hnh hnm
      rw [det_eq_table, if_neg (fun hb => hnh ((highBool_iff s).mp hb)),
        if_neg (fun hb => hnm ((mediumBool_iff s).mp hb))]

/-- Witness for C3: an unflagged result is low/approved, and a flagged
result with hate at 0.9 is high/block. -/
theorem c3_witness :
    determineActionAndSeverity { flagged := false, categories := [], category_scores := none } =
      { action := false, severity := "low", determinedAction := "approved" } ∧
    determineActionAndSeverity
        { flagged := true, categories := []
        , category_scores := some { emptyScores with hate := some (mkRat 9 10) } } =
      { action := true, severity := "high", determinedAction := "block" } :=
  ⟨c3_severity_decision_table.1 _ rfl,
    (c3_severity_decision_table.2.1 _ { emptyScores with hate := some (mkRat 9 10) }
      rfl rfl (by decide)).1 (by decide)⟩

/-- C4 counterexample: a flagged result whose scores object is present but
empty does not take the unknown fallback; the empty object is truthy, all
comparisons against undefined fields are false, and the result is
low/warn. -/
theorem c4_counterexample :
    determineActionAndSeverity
        { flagged := true, categories := [], category_scores := some emptyScores } =
      { action := true, severity := "low", determinedAction := "warn" } ∧
    (determineActionAndSeverity
        { flagged := true, categories := [], category_scores := some emptyScores }).severity ≠
      "unknown" ∧
    (determineActionAndSeverity
        { flagged := true, categories := [], category_scores := some emptyScores }).determinedAction ≠
      "flagged_unknown_severity" := by
  decide

/-- C4 amended: for every result with flagged true and scores ABSENT, the
classification returns severity unknown with action
flagged_unknown_severity, as a total (non-throwing) local fallback; a
present-but-empty scores object instead falls through the threshold table
and yields low/warn. -/
theorem c4_absent_scores_unknown (m : ModerationResult)
    (hf : m.flagged = true) (hs : m.category_scores = none) :
    determineActionAndSeverity m =
      { action := true, severity := "unknown", determinedAction := "flagged_unknown_severity" } ∧
    determineActionAndSeverity { m with category_scores := some emptyScores } =
      { action := true, severity := "low", determinedAction := "warn" } := by
  obtain ⟨flag, cats, cs⟩ := m
  cases hf
  cases hs
  exact ⟨det_absent cats, rfl⟩

/-- Witness for C4: concrete flagged result with absent scores. -/
theorem c4_witness :
    determineActionAndSeverity { flagged := true, categories := [], category_scores := none } =
      { action := true, severity := "unknown", determinedAction := "flagged_unknown_severity" } :=
  (c4_absent_scores_unknown { flagged := true, categories := [], category_scores := none }
    rfl rfl).1

/-- C5 (code bug): a whitelist rule with a null action_override controls
the decision with the default approve action, yet the emitted decision has
flagged = true: the rule path defaults to the string "approve" while the
flagged bit is computed as determinedAction !== "approved", so the
response simultaneously carries the approval action and flagged = true,
contradicting the invariant that flagged equals (action != approve). -/
theorem c5_whitelist_default_emits_flagged :
    jsOr whiteOk.action_override "approve" = "approve" ∧
    moderatePost engNone (RuleStoreOutcome.ok [whiteOk]) (ClassifierOutcome.failure "unused")
        false false "client-1" none "ok please" =
      { response := ApiResponse.ok
          { flagged := true, action := "approve", severity := "custom_rule"
          , categories := [], custom_rule_applied := true, matched_rule_id := some "w-ok" }
      , logWritten := none } := by
  decide

/-- C6 counterexample: for a non-case-sensitive regex rule the code does
not hand the regex engine the unchanged term and the original text: both
the pattern and the text are lower-cased (in addition to setting the
case-insensitive flag). -/
theorem c6_counterexample :
    regexCallFor
        { id := "rx-upper", term := "FOO", type := RuleType.blacklist
        , action_override := none, is_regex := true, case_sensitive := false } "The BAR" =
      { pattern := "foo", ignoreCase := true, text := "the bar" } ∧
    (regexCallFor
        { id := "rx-upper", term := "FOO", type := RuleType.blacklist
        , action_override := none, is_regex := true, case_sensitive := false } "The BAR").pattern ≠
      "FOO" ∧
    (regexCallFor
        { id := "rx-upper", term := "FOO", type := RuleType.blacklist
        , action_override := none, is_regex := true, case_sensitive := false } "The BAR").text ≠
      "The BAR" := by
  decide

/-- C6 amended: for every rule with is_regex true and case_sensitive
false, matching compiles the LOWER-CASED term with the engine's
case-insensitive flag set and tests it against the LOWER-CASED text; case
folding is thus applied both by lower-casing and by the engine flag. -/
theorem c6_regex_case_insensitive_lowers_both (eng : RegexEngine) (content : String)
    (rule : CustomRule) (hre : rule.is_regex = true) (hcs : rule.case_sensitive = false) :
    regexCallFor rule content =
      { pattern := jsToLower rule.term, ignoreCase := true, text := jsToLower content } ∧
    ruleMatches eng content rule =
      (match eng (jsToLower rule.term) true with
       | none => false
       | some f => f (jsToLower content)) := by
  constructor
  · simp [regexCallFor, hcs]
  · rw [ruleMatches_regex_call eng content rule hre]
    simp [regexCallFor, hcs]

/-- Witness for C6: an engine that recognises exactly the lower-cased
pattern, flag and text the code produces reports a match. -/
theorem c6_witness :
    ruleMatches
        (fun pat ic => some (fun txt => pat == "foo" && ic && txt == "the bar"))
        "The BAR"
        { id := "rx-upper", term := "FOO", type := RuleType.blacklist
        , action_override := none, is_regex := true, case_sensitive := false } = true := by
  rw [(c6_regex_case_insensitive_lowers_both
    (fun pat ic => some (fun txt => pat == "foo" && ic && txt == "the bar"))
    "The BAR"
    { id := "rx-upper", term := "FOO", type := RuleType.blacklist
    , action_override := none, is_regex := true, case_sensitive := false } rfl rfl).2]
  decide

/-- C7: a non-regex rule matches iff the text contains the term as a
substring, both lower-cased first unless the rule is case-sensitive; and
the spec scenario holds: the literal non-case-sensitive blacklist rule on
foo matches the text containing FOO, resolving to the default block with
the matched rule id set in the response. -/
theorem c7_literal_substring_match (eng : RegexEngine) (content : String) (rule : CustomRule)
    (h : rule.is_regex = false) :
    (ruleMatches eng content rule = true ↔
      (if rule.case_sensitive then rule.term.toList <:+: content.toList
       else (jsToLower rule.term).toList <:+: (jsToLower content).toList)) ∧
    applyCustomRules engNone (RuleStoreOutcome.ok [fooRule]) "this has FOO in it" =
      { actionOverride := some "block", ruleMatched := some fooRule } ∧
    (moderatePost engNone (RuleStoreOutcome.ok [fooRule]) (ClassifierOutcome.failure "unused")
        true true "client-1" none "this has FOO in it").response =
      ApiResponse.ok
        { flagged := true, action := "block", severity := "custom_rule"
        , categories := [], custom_rule_applied := true, matched_rule_id := some "r-foo" } := by
  refine ⟨?_, by decide, by decide⟩
  by_cases hcs : rule.case_sensitive
  · simp [ruleMatches, h, hcs, jsIncludes]
  · simp only [Bool.not_eq_true] at hcs
    simp [ruleMatches, h, hcs, jsIncludes]

/-- Witness for C7: the scenario rule matches its scenario text through
the substring characterisation. -/
theorem c7_witness :
    ruleMatches engNone "this has FOO in it" fooRule = true :=
  (c7_literal_substring_match engNone "this has FOO in it" fooRule rfl).1.mpr (by decide)

/-- C8: a regex rule whose pattern does not compile on the engine is
non-fatal: it is treated as not matching, and resolution of any ruleset
containing it equals resolution of the same ruleset with that rule
removed. -/
theorem c8_invalid_regex_skipped (eng : RegexEngine) (content : String)
    (l1 l2 : List CustomRule) (bad : CustomRule)
    (hre : bad.is_regex = true)
    (hcompile :
      eng (if bad.case_sensitive then bad.term else jsToLower bad.term) (!bad.case_sensitive) =
        none) :
    ruleMatches eng content bad = false ∧
    applyCustomRules eng (RuleStoreOutcome.ok (l1 ++ bad :: l2)) content =
      applyCustomRules eng (RuleStoreOutcome.ok (l1 ++ l2)) content := by
  have hbad : ruleMatches eng content bad = false := by
    simp [ruleMatches, hre, hcompile]
  refine ⟨hbad, ?_⟩
  have hlen : (l1 ++ bad :: l2).isEmpty = false := by
    cases l1 <;> rfl
  simp only [applyCustomRules, hlen, Bool.false_eq_true, if_false]
  rw [scanRules_skip_rule eng content bad hbad l1 l2 none]
  cases l1 ++ l2 with
  | nil => rfl
  | cons a l => rfl

/-- Witness for C8: the non-compiling regex rule after a matching
blacklist rule changes nothing. -/
theorem c8_witness :
    ruleMatches engNone "aa" badRegexRule = false ∧
    applyCustomRules engNone (RuleStoreOutcome.ok [blackA, badRegexRule]) "aa" =
      applyCustomRules engNone (RuleStoreOutcome.ok [blackA]) "aa" :=
  c8_invalid_regex_skipped engNone "aa" [blackA] [] badRegexRule rfl rfl

/-- C9: when no custom rule controls the decision and the classifier call
throws (unavailable, timeout or transport error), the handler returns the
500 openai_error response: no decision is emitted and no moderation log
row is written for the request. -/
theorem c9_classifier_failure_aborts (eng : RegexEngine) (store : RuleStoreOutcome)
    (content message clientId : String) (userId : Option String) (supabaseAvailable : Bool)
    (h : (applyCustomRules eng store content).actionOverride = none) :
    moderatePost eng store (ClassifierOutcome.failure message) true supabaseAvailable
        clientId userId content =
      { response := ApiResponse.error 500 "openai_error", logWritten := none } := by
  simp [moderatePost, h]

/-- Witness for C9: empty ruleset, classifier timeout. -/
theorem c9_witness :
    moderatePost engNone (RuleStoreOutcome.ok []) (ClassifierOutcome.failure "timeout")
        true true "client-1" none "hello" =
      { response := ApiResponse.error 500 "openai_error", logWritten := none } :=
  c9_classifier_failure_aborts engNone (RuleStoreOutcome.ok []) "hello" "timeout" "client-1"
    none true rfl

/-- C10: rule-layer failures are fail-open. A missing rule store, a
database error, an exception caught by the outer catch, and an empty
ruleset all make applyCustomRules return no override and no matched rule,
and the whole handler then behaves exactly as with an empty ruleset (the
classifier fallback path): a rule-store failure never produces a request
error and never blocks content by itself. -/
theorem c10_rule_store_failures_fail_open (eng : RegexEngine) (content clientId : String)
    (userId : Option String) (cls : ClassifierOutcome) (openaiAvailable supabaseAvailable : Bool) :
    applyCustomRules eng RuleStoreOutcome.unavailable content =
      { actionOverride := none, ruleMatched := none } ∧
    applyCustomRules eng RuleStoreOutcome.dbError content =
      { actionOverride := none, ruleMatched := none } ∧
    applyCustomRules eng RuleStoreOutcome.thrown content =
      { actionOverride := none, ruleMatched := none } ∧
    applyCustomRules eng (RuleStoreOutcome.ok []) content =
      { actionOverride := none, ruleMatched := none } ∧
    moderatePost eng RuleStoreOutcome.unavailable cls openaiAvailable supabaseAvailable
        clientId userId content =
      moderatePost eng (RuleStoreOutcome.ok []) cls openaiAvailable supabaseAvailable
        clientId userId content ∧
    moderatePost eng RuleStoreOutcome.dbError cls openaiAvailable supabaseAvailable
        clientId userId content =
      moderatePost eng (RuleStoreOutcome.ok []) cls openaiAvailable supabaseAvailable
        clientId userId content ∧
    moderatePost eng RuleStoreOutcome.thrown cls openaiAvailable supabaseAvailable
        clientId userId content =
      moderatePost eng (RuleStoreOutcome.ok []) cls openaiAvailable supabaseAvailable
        clientId userId content :=
  ⟨rfl, rfl, rfl, rfl, rfl, rfl, rfl⟩

end Moderation
